import Mathlib

/-!
Verification of the CleanDesk-ACRM compliance pipeline.

This development gives a shallow embedding of the consolidation,
classification and reporting logic of the repository (src/main.py,
src/gemini_process.py, src/Main2.py, src/dsa.py) and proves the
testable properties of its specification against it.

Conventions of the embedding:
  * Python strings are Lean `String`s; `sub in s` is contiguous-substring
    containment over the character lists.
  * The LLM call (`query_ollama` / `query_gemini`) is abstracted as an
    `Option String`: `none` models a transport-level error (the function
    returns `None` after catching `RequestException`), `some s` models a
    returned (already stripped) text `s`; Python truthiness of the result
    (`if ai_response:`) is `s ≠ ""`.
  * pandas tables are lists of rows; a CSV physical line is the list of
    its fields.
  * File-system side effects (writing a CSV / a PDF) are modelled by the
    returned value: `none` means no file was written.
-/

namespace CleanDesk

/-! Basic string operations mirroring the Python built-ins used by the code. -/

/-- Decides whether `pat` occurs at the head of `s` (chars compared one by one). -/
def leadMatch : List Char → List Char → Bool
  | [], _ => true
  | _ :: _, [] => false
  | a :: as, b :: bs => a = b && leadMatch as bs

/-- Decides whether `pat` occurs contiguously anywhere in `s`: the embedding of
Python's substring test `pat in s`. -/
def occursIn (pat : List Char) : List Char → Bool
  | [] => pat.isEmpty
  | c :: rest => leadMatch pat (c :: rest) || occursIn pat rest

/-- Python `sub in s` on strings. -/
def containsSub (s pat : String) : Bool := occursIn pat.data s.data

/-- ASCII lower-casing of one character, the fragment of `str.lower()` relevant
to the "pass"/"fail" matching done by the code. -/
def lowerChar (c : Char) : Char :=
  if 'A' ≤ c && c ≤ 'Z' then Char.ofNat (c.toNat + 32) else c

/-- Embedding of Python `s.lower()`. -/
def lowerStr (s : String) : String := String.mk (s.data.map lowerChar)

/-- Python whitespace (the characters `str.strip()` removes by default). -/
def isSpaceChar (c : Char) : Bool :=
  c = ' ' || c = '\t' || c = '\n' || c = '\r' || c = '\x0b' || c = '\x0c'

/-- Embedding of Python `s.strip()`. -/
def pyStrip (s : String) : String :=
  String.mk (((s.data.dropWhile isSpaceChar).reverse.dropWhile isSpaceChar).reverse)

/-! The classifier verdict (src/main.py lines 209-217, src/gemini_process.py
lines 236-246, src/Main2.py lines 124-131). -/

/-- The three verdict values the code writes into the `AI_P_F` column. -/
inductive Verdict
  | PASSED
  | FAILED
  | UNKNOWN
deriving DecidableEq

/-- String form of a verdict as stored in the table. -/
def verdictStr : Verdict → String
  | .PASSED => "PASSED"
  | .FAILED => "FAILED"
  | .UNKNOWN => "UNKNOWN"

/-- Embedding of the classification of a non-empty AI reply
(src/main.py lines 212-217):
`if "pass" in ai_response.lower(): "PASSED" elif "fail" in ...: "FAILED" else "UNKNOWN"`. -/
def classifyReply (ai_response : String) : Verdict :=
  if containsSub (lowerStr ai_response) "pass" then .PASSED
  else if containsSub (lowerStr ai_response) "fail" then .FAILED
  else .UNKNOWN

/-! The per-row outcome of the classification loop (src/main.py lines 209-237). -/

/-- The two columns the Ollama-variant loop writes for one row. -/
structure RowResult where
  ai_response : String
  ai_pf : String
deriving DecidableEq

/-- Embedding of one iteration's column updates (src/main.py lines 209-237).
The argument is the value returned by `query_ollama`: `none` for a transport
error, `some r` for a returned text `r`; `if ai_response:` is falsy exactly
when the call errored or the text is empty. -/
def ollamaRowOutcome (resp : Option String) : RowResult :=
  match resp with
  | none => ⟨"Error or No Response", "UNKNOWN"⟩
  | some r =>
    if r = "" then ⟨"Error or No Response", "UNKNOWN"⟩
    else ⟨pyStrip r, verdictStr (classifyReply r)⟩

/-- Embedding of the classification loop of
`process_csv_for_pass_fail_and_generate_pdfs` (src/main.py lines 198-237).
`resps` lists the LLM responses for the rows in order; `pdfOk i` tells whether
the PDF write for row `i` succeeds (the loop calls `generate_pdf` for every
FAILED row with no try/except around it, so a raised I/O error propagates:
modelled by `.error ()`, which discards the rest of the loop). -/
def processRows (pdfOk : Nat → Bool) : List (Option String) → Nat → Except Unit (List RowResult)
  | [], _ => .ok []
  | resp :: rest, i =>
    let o := ollamaRowOutcome resp
    if o.ai_pf = "FAILED" ∧ pdfOk i = false then .error ()
    else
      match processRows pdfOk rest (i + 1) with
      | .ok tail => .ok (o :: tail)
      | .error u => .error u

/-- Embedding of the try/except of `run_ai_on_csv` around the whole
classification stage (src/main.py lines 258-295): an exception raised inside
the loop is caught there and logged, and the output CSV is never written
(`none`); otherwise the full classified table is written (`some`). -/
def runClassification (pdfOk : Nat → Bool) (resps : List (Option String)) :
    Option (List RowResult) :=
  match processRows pdfOk resps 0 with
  | .ok out => some out
  | .error _ => none

/-! The consolidator (src/main.py lines 21-87; src/dsa.py lines 10-76 and
src/gemini_process.py lines 31-84 are near-identical copies). -/

/-- One immediate child of the root directory, as the walk sees it. -/
inductive DirEntry
  /-- a child that is not a directory (skipped by the walk) -/
  | file (name : String)
  /-- an employee subfolder; `cdnotes = none` models a missing (or unreadable)
  `cdnotes.csv`, `some lines` its physical lines, each line the list of its
  comma-separated fields -/
  | dir (name : String) (cdnotes : Option (List (List String)))
deriving DecidableEq

/-- Name of a directory entry. -/
def entryName : DirEntry → String
  | .file n => n
  | .dir n _ => n

/-- One parsed row of a `cdnotes.csv` file: the `Record Date` field and the
`Note` field (`none` when the line had a single field, pandas padding with
null). -/
structure ParsedRow where
  date : String
  note : Option String
deriving DecidableEq

/-- The keep rule of `pd.read_csv(header=None, names=[date, note],
on_bad_lines="skip")` when the parser's expected width is two, the case in
which the file's first non-blank line has the two named fields: a "bad line"
is one with more fields than expected and is skipped, a shorter non-blank
line is kept padded with null, and blank lines are skipped. The parser infers
its expected width from the first non-blank line, so a file whose first line
is wider instead shifts the extra leading fields into the frame's index;
that regime is outside this model. -/
def keptLine (l : List String) : Bool := !l.isEmpty && decide (l.length ≤ 2)

/-- A line that is a well-formed two-field `(date, note)` record, as the
specification words it. -/
def twoField (l : List String) : Bool := decide (l.length = 2)

/-- The first non-blank line of a note file, from which the pandas tokenizer
infers its expected field width. -/
def firstDataLine (lines : List (List String)) : List String :=
  (lines.dropWhile List.isEmpty).headD []

/-- Embedding of the `pd.read_csv` call on one `cdnotes.csv`
(src/main.py lines 57-62), faithful on files whose first non-blank line has
the two named fields (see `keptLine`): the kept lines in order, a missing
note field read as null. -/
def parseNoteFile (lines : List (List String)) : List ParsedRow :=
  (lines.filter keptLine).map (fun l => ⟨l.headD "", l.get? 1⟩)

/-- One row of the consolidated table (src/main.py line 30). -/
structure CRow where
  employee : String
  date : String
  note : Option String
deriving DecidableEq

/-- Rows contributed by one directory entry: non-directories and folders
without a readable `cdnotes.csv` contribute nothing (src/main.py lines 39-52),
otherwise each parsed line is tagged with the employee name, i.e. the
subfolder name (src/main.py lines 44, 71). -/
def contributionOf : DirEntry → List CRow
  | .file _ => []
  | .dir _ none => []
  | .dir name (some lines) => (parseNoteFile lines).map (fun p => ⟨name, p.date, p.note⟩)

/-- Embedding of the accumulation loop of `consolidate_cdnotes`
(src/main.py lines 35-75): `consolidated_data = pd.concat([acc, new])`. -/
def consolidatedRows (entries : List DirEntry) : List CRow :=
  entries.foldl (fun acc e => acc ++ contributionOf e) []

/-- Embedding of the final stage of `consolidate_cdnotes`
(src/main.py lines 77-87): the empty check, the log message, and the save.
The first component is the written file content (`none` when no file is
written); the second the log messages of this stage. The function is total:
no exception escapes. -/
def consolidateFinish (rows : List CRow) : Option (List CRow) × List String :=
  if rows.isEmpty then
    (none, ["No data found to consolidate. No file will be generated."])
  else
    (some rows, ["Consolidated data saved."])

/-- The whole consolidator: walk, accumulate, then save-or-skip. -/
def consolidate_cdnotes (entries : List DirEntry) : Option (List CRow) × List String :=
  consolidateFinish (consolidatedRows entries)

/-! Dates. `run_ai_on_csv` parses the `Record Date` column with
`pd.to_datetime(..., format="%m-%d-%Y", errors="coerce")` (src/main.py line
264); the Gemini `generate_pdf` parses with `datetime.strptime(record_date,
"%Y-%m-%d")` (src/gemini_process.py line 160). strptime's `%m`/`%d` match one
or two digits, `%Y` exactly four; the resulting `datetime` constructor
validates the calendar (month 1-12, day within the month's length, year ≥ 1). -/

/-- A validated calendar date. -/
structure PDate where
  month : Nat
  day : Nat
  year : Nat
deriving DecidableEq

/-- Gregorian leap-year rule. -/
def isLeap (y : Nat) : Bool := y % 4 = 0 && (y % 100 ≠ 0 || y % 400 = 0)

/-- Number of days of month `m` in year `y`. -/
def daysInMonth (m y : Nat) : Nat :=
  if m = 2 then (if isLeap y then 29 else 28)
  else if m = 4 || m = 6 || m = 9 || m = 11 then 30
  else 31

/-- Split a character list on a separator, Python `str.split(sep)` semantics. -/
def splitOnChar (sep : Char) : List Char → List (List Char)
  | [] => [[]]
  | c :: rest =>
    if c = sep then [] :: splitOnChar sep rest
    else
      match splitOnChar sep rest with
      | [] => [[c]]
      | h :: t => (c :: h) :: t

/-- The dash-separated parts of a string. -/
def dashParts (s : String) : List String := (splitOnChar '-' s.data).map String.mk

/-- Whether a string is one or more decimal digits. -/
def allDigits (s : String) : Bool := !s.isEmpty && s.data.all Char.isDigit

/-- Numeric value of a digit string. -/
def digitsVal (s : String) : Nat :=
  s.data.foldl (fun n c => n * 10 + (c.toNat - 48)) 0

/-- A strptime `%m` or `%d` field: one or two digits. -/
def field2 (s : String) : Option Nat :=
  if allDigits s && decide (s.length ≤ 2) then some (digitsVal s) else none

/-- A strptime `%Y` field: exactly four digits. -/
def field4 (s : String) : Option Nat :=
  if allDigits s && decide (s.length = 4) then some (digitsVal s) else none

/-- The calendar validation done by the `datetime` constructor. -/
def mkDate (m d y : Nat) : Option PDate :=
  if 1 ≤ m && m ≤ 12 && 1 ≤ d && d ≤ daysInMonth m y && 1 ≤ y then some ⟨m, d, y⟩
  else none

/-- Embedding of `strptime(s, "%m-%d-%Y")`, also the row-wise behaviour of
`pd.to_datetime(..., format="%m-%d-%Y", errors="coerce")` with `none` for the
coerced null. -/
def parseDateMDY (s : String) : Option PDate :=
  match dashParts s with
  | [ms, ds, ys] =>
    match field2 ms, field2 ds, field4 ys with
    | some m, some d, some y => mkDate m d y
    | _, _, _ => none
  | _ => none

/-- Embedding of `strptime(s, "%Y-%m-%d")` (Gemini `generate_pdf`). -/
def parseDateYMD (s : String) : Option PDate :=
  match dashParts s with
  | [ys, ms, ds] =>
    match field4 ys, field2 ms, field2 ds with
    | some y, some m, some d => mkDate m d y
    | _, _, _ => none
  | _ => none

/-- Linear encoding of a date; on calendar dates (month ≤ 12, day ≤ 31) it
orders exactly as the timestamps pandas compares. -/
def PDate.ord (d : PDate) : Nat := d.year * 416 + d.month * 32 + d.day

/-! The date-range filter and `run_ai_on_csv` (src/main.py lines 248-295). -/

/-- One row of the consolidated CSV as `run_ai_on_csv` reads it. -/
structure InRow where
  employee : String
  date : String
  note : String
deriving DecidableEq

/-- The row-wise range test `(date >= start) & (date <= end)` after the
coercing parse: a row whose date failed to parse is null and compares false on
both sides (src/main.py lines 264-269). -/
def inRange (s e : PDate) (dateStr : String) : Bool :=
  match parseDateMDY dateStr with
  | some d => s.ord ≤ d.ord && d.ord ≤ e.ord
  | none => false

/-- The filtered slice `data[(data["Record Date"] >= start) & (... <= end)]`. -/
def filterByRange (rows : List InRow) (s e : PDate) : List InRow :=
  rows.filter (fun r => inRange s e r.date)

/-- Number of LLM calls the classification loop performs: one per row until
(and including) a row whose PDF write raises (src/main.py lines 198-237; the
`query_ollama` call of a row precedes its `generate_pdf` call). -/
def llmCallCount (pdfOk : Nat → Bool) : List (Option String) → Nat → Nat
  | [], _ => 0
  | resp :: rest, i =>
    if (ollamaRowOutcome resp).ai_pf = "FAILED" ∧ pdfOk i = false then 1
    else 1 + llmCallCount pdfOk rest (i + 1)

/-- The observable result of one `run_ai_on_csv` run. -/
structure RunResult where
  output : Option (List RowResult)
  llmCalls : Nat
  logs : List String
deriving DecidableEq

/-- Embedding of `run_ai_on_csv` (src/main.py lines 248-295): filter by date
range; if the slice is empty, log "No records found in the specified date
range." and return before any LLM interaction or file write; otherwise run the
classification loop on the slice (`oracle i` is the LLM response for the i-th
filtered row), writing the output CSV unless an exception aborted the loop, in
which case the outer except logs the error. -/
def run_ai_on_csv (rows : List InRow) (s e : PDate) (oracle : Nat → Option String)
    (pdfOk : Nat → Bool) : RunResult :=
  let filtered := filterByRange rows s e
  if filtered.isEmpty then
    { output := none, llmCalls := 0,
      logs := ["No records found in the specified date range."] }
  else
    let resps := (List.range filtered.length).map oracle
    match processRows pdfOk resps 0 with
    | .ok out =>
      { output := some out, llmCalls := llmCallCount pdfOk resps 0,
        logs := ["Results saved to output_with_ai.csv"] }
    | .error _ =>
      { output := none, llmCalls := llmCallCount pdfOk resps 0,
        logs := ["Error"] }

/-! The acknowledgment-PDF filename (src/gemini_process.py lines 158-171). -/

/-- Python `employee_name.replace(' ', '_')`. -/
def underscoreName (s : String) : String :=
  String.mk (s.data.map (fun c => if c = ' ' then '_' else c))

/-- Two-digit zero-padded rendering, strftime `%m` / `%d`. -/
def pad2 (n : Nat) : String := if n < 10 then "0" ++ toString n else toString n

/-- strftime("%m-%d-%Y") on a parsed date (`%Y` prints the year unpadded on
the C library the code runs against; pipeline dates have four-digit years). -/
def formatMDY (d : PDate) : String :=
  pad2 d.month ++ "-" ++ pad2 d.day ++ "-" ++ toString d.year

/-- Embedding of the filename computation of the Gemini `generate_pdf`
(src/gemini_process.py lines 158-167): parse the row date as `%Y-%m-%d`,
re-format as `%m-%d-%Y`, fall back to the literal `"Unknown_Date"` when the
parse raises; the filename is the formatted date, a dash, the employee name
with each space replaced by an underscore, and the suffix -CD.PDF.
The function is total: generation always completes with a filename. -/
def pdfFileName (employee_name record_date : String) : String :=
  let formatted_date :=
    match parseDateYMD record_date with
    | some d => formatMDY d
    | none => "Unknown_Date"
  formatted_date ++ "-" ++ underscoreName employee_name ++ "-CD.PDF"

/-! The Gemini-variant per-row outcome (src/gemini_process.py lines 236-263). -/

/-- The three columns the Gemini loop writes for one row. -/
structure GRowResult where
  ai_response : String
  ai_pf : String
  compliant : String
deriving DecidableEq

/-- Embedding of one iteration's column updates in the Gemini variant
(src/gemini_process.py lines 236-263), including the `Compliant` column. -/
def geminiRowOutcome (resp : Option String) : GRowResult :=
  match resp with
  | none => ⟨"Error or No Response", "UNKNOWN", "UNKNOWN"⟩
  | some r =>
    if r = "" then ⟨"Error or No Response", "UNKNOWN", "UNKNOWN"⟩
    else if containsSub (lowerStr r) "pass" then ⟨pyStrip r, "PASSED", "YES"⟩
    else if containsSub (lowerStr r) "fail" then ⟨pyStrip r, "FAILED", "NO"⟩
    else ⟨pyStrip r, "UNKNOWN", "UNKNOWN"⟩

/-! The Gemini reporter's column projection (src/gemini_process.py lines
265-308). -/

/-- A pandas DataFrame abstracted to its header and its rows of cells. -/
structure Table where
  cols : List String
  rows : List (List String)
deriving DecidableEq

/-- The required output schema (src/gemini_process.py lines 267-269). -/
def requiredColumns : List String :=
  ["Employee Name", "Last Clean Desk Date", "Location", "Compliant", "Note", "AI_Response"]

/-- Embedding of the pandas rename of the column label "Record Date" to
"Last Clean Desk Date" (src/gemini_process.py line 265; the conditional rename at lines 284-285 is
the same map, a no-op when the label is absent). -/
def renameCols (cols : List String) : List String :=
  cols.map (fun c => if c = "Record Date" then "Last Clean Desk Date" else c)

/-- Table-level rename. -/
def renameTable (t : Table) : Table := ⟨renameCols t.cols, t.rows⟩

/-- pandas `data[c] = v` for a label `c` not yet present: a new column at the
end, holding `v` in every row. -/
def addColumn (t : Table) (c v : String) : Table :=
  ⟨t.cols ++ [c], t.rows.map (fun r => r ++ [v])⟩

/-- Embedding of the fill loop
`for column in req: if column not in data.columns: data[column] = fill column`
(src/gemini_process.py lines 270-272 with constant fill "Unknown"; lines
296-298 with the per-column variant fill). -/
def addMissingL (fill : String → String) (req : List String) (t : Table) : Table :=
  req.foldl (fun acc c => if acc.cols.contains c then acc else addColumn acc c (fill c)) t

/-- First index of a label in a header. -/
def idxOf (c : String) : List String → Option Nat
  | [] => none
  | x :: xs => if x = c then some 0 else (idxOf c xs).map (· + 1)

/-- Value of row `row` (laid out along `cols`) at label `c`. -/
def lookupCell (cols row : List String) (c : String) : String :=
  match idxOf c cols with
  | some i => row.getD i ""
  | none => ""

/-- Embedding of the label-based projection `data = data[required_columns]`
(src/gemini_process.py lines 274 and 301). -/
def projectTable (t : Table) : Table :=
  ⟨requiredColumns, t.rows.map (fun r => requiredColumns.map (lookupCell t.cols r))⟩

/-- The first rename-fill-project pass (src/gemini_process.py lines 265-274). -/
def finalizePass1 (t : Table) : Table :=
  projectTable (addMissingL (fun _ => "Unknown") requiredColumns (renameTable t))

/-- The second, duplicated pass (src/gemini_process.py lines 283-301), whose
fill is `"Unknown"` for Location/Compliant and `""` otherwise. -/
def finalizePass2 (t : Table) : Table :=
  projectTable
    (addMissingL (fun c => if c = "Location" || c = "Compliant" then "Unknown" else "")
      requiredColumns (renameTable t))

/-- The state of `data` at the final `to_csv` (src/gemini_process.py line
304): both passes applied in order. -/
def finalReport (t : Table) : Table := finalizePass2 (finalizePass1 t)

/-- A table is rectangular: every row has one cell per column. -/
def Aligned (t : Table) : Prop := ∀ r ∈ t.rows, r.length = t.cols.length

end CleanDesk

namespace CleanDesk

example : classifyReply "The desk Passes inspection" = .PASSED := by decide
example : classifyReply "Fail: items present" = .FAILED := by decide
example : classifyReply "Pass despite earlier fail" = .PASSED := by decide
example : classifyReply "unclear" = .UNKNOWN := by decide
example : ollamaRowOutcome none = ⟨"Error or No Response", "UNKNOWN"⟩ := by decide
example : processRows (fun _ => true) [some "Fail", some "x"] 0 =
    .ok [⟨"Fail", "FAILED"⟩, ⟨"x", "UNKNOWN"⟩] := rfl
example : processRows (fun i => decide (0 < i)) [some "Fail", some "Fail"] 0 = .error () := rfl
example : consolidate_cdnotes [.file "readme.txt", .dir "Empty" none] =
    (none, ["No data found to consolidate. No file will be generated."]) := by decide
example : consolidatedRows [.dir "Acme" (some [["03/01/2024", "pens"], ["a", "b", "c"], ["d"]])] =
    [⟨"Acme", "03/01/2024", some "pens"⟩, ⟨"Acme", "d", none⟩] := by decide
example : parseDateMDY "03-01-2024" = some ⟨3, 1, 2024⟩ := by decide
example : parseDateMDY "3-1-2024" = some ⟨3, 1, 2024⟩ := by decide
example : parseDateMDY "02-30-2024" = none := by decide
example : parseDateMDY "02-29-2024" = some ⟨2, 29, 2024⟩ := by decide
example : parseDateMDY "02-29-2023" = none := by decide
example : parseDateMDY "03/01/2024" = none := by decide
example : parseDateMDY "03-01-24" = none := by decide
example : parseDateYMD "2024-03-01" = some ⟨3, 1, 2024⟩ := by decide
example : parseDateYMD "nan" = none := by decide
example : pdfFileName "John Doe" "2024-03-01" = "03-01-2024-John_Doe-CD.PDF" := by decide
example : pdfFileName "John Doe" "garbage" = "Unknown_Date-John_Doe-CD.PDF" := by decide
example : geminiRowOutcome (some "Pass, compliant") = ⟨"Pass, compliant", "PASSED", "YES"⟩ := by
  decide
example :
    run_ai_on_csv [⟨"A", "bad-date", "n"⟩] ⟨3, 1, 2024⟩ ⟨3, 2, 2024⟩ (fun _ => none)
      (fun _ => true) =
    { output := none, llmCalls := 0,
      logs := ["No records found in the specified date range."] } := by decide
example : finalReport ⟨["Record Date", "Note"], [["03-01-2024", "pens"]]⟩ =
    ⟨requiredColumns, [["Unknown", "03-01-2024", "Unknown", "Unknown", "pens", "Unknown"]]⟩ := by
  decide

/-! Theorems settling the claims. -/

/-- C1: for every classified row, the verdict is PASSED iff the lower-cased AI
reply contains "pass"; FAILED iff it contains "fail" and not "pass"; otherwise
UNKNOWN; in particular a reply containing both substrings classifies as PASSED
because "pass" is checked first. -/
theorem claim_C1_verdict_rule (r : String) :
    (classifyReply r = .PASSED ↔ containsSub (lowerStr r) "pass" = true)
  ∧ (classifyReply r = .FAILED ↔
      (containsSub (lowerStr r) "fail" = true ∧ containsSub (lowerStr r) "pass" = false))
  ∧ (classifyReply r = .UNKNOWN ↔
      (containsSub (lowerStr r) "pass" = false ∧ containsSub (lowerStr r) "fail" = false))
  ∧ (containsSub (lowerStr r) "pass" = true → containsSub (lowerStr r) "fail" = true →
      classifyReply r = .PASSED) := by
  unfold classifyReply
  cases h1 : containsSub (lowerStr r) "pass" <;>
    cases h2 : containsSub (lowerStr r) "fail" <;> simp [h1, h2]

/-- Witness for C1 at a reply containing both substrings. -/
theorem claim_C1_witness :
    containsSub (lowerStr "Pass and Fail") "pass" = true ∧
    containsSub (lowerStr "Pass and Fail") "fail" = true ∧
    classifyReply "Pass and Fail" = .PASSED :=
  ⟨by decide, by decide,
   (claim_C1_verdict_rule "Pass and Fail").2.2.2 (by decide) (by decide)⟩

/-- C10: in the Gemini variant, every classified row has Compliant "YES" iff
the verdict is PASSED, "NO" iff FAILED, and "UNKNOWN" iff UNKNOWN; rows whose
LLM call failed get Compliant "UNKNOWN" together with the error sentinel. -/
theorem claim_C10_compliant_invariant (resp : Option String) :
    ((geminiRowOutcome resp).compliant = "YES" ↔ (geminiRowOutcome resp).ai_pf = "PASSED")
  ∧ ((geminiRowOutcome resp).compliant = "NO" ↔ (geminiRowOutcome resp).ai_pf = "FAILED")
  ∧ ((geminiRowOutcome resp).compliant = "UNKNOWN" ↔ (geminiRowOutcome resp).ai_pf = "UNKNOWN")
  ∧ ((resp = none ∨ resp = some "") →
      geminiRowOutcome resp = ⟨"Error or No Response", "UNKNOWN", "UNKNOWN"⟩) := by
  cases resp with
  | none => decide
  | some r =>
    by_cases hr : r = ""
    · subst hr; decide
    · unfold geminiRowOutcome
      cases h1 : containsSub (lowerStr r) "pass" <;>
        cases h2 : containsSub (lowerStr r) "fail" <;> simp [h1, h2, hr]

/-- Witness for C10 at a failed LLM call. -/
theorem claim_C10_witness :
    geminiRowOutcome none = ⟨"Error or No Response", "UNKNOWN", "UNKNOWN"⟩ ∧
    ((geminiRowOutcome none).compliant = "UNKNOWN" ↔ (geminiRowOutcome none).ai_pf = "UNKNOWN") :=
  ⟨(claim_C10_compliant_invariant none).2.2.2 (Or.inl rfl),
   (claim_C10_compliant_invariant none).2.2.1⟩

/-- The classification loop completes in order whenever no FAILED row's PDF
write raises, producing one result per response. -/
theorem processRows_ok (pdfOk : Nat → Bool) (resps : List (Option String)) (i : Nat)
    (h : ∀ j, (ollamaRowOutcome (resps.getD j none)).ai_pf = "FAILED" → pdfOk (i + j) = true) :
    processRows pdfOk resps i = .ok (resps.map ollamaRowOutcome) := by
  induction resps generalizing i with
  | nil => rfl
  | cons resp rest ih =>
    have hcond : ¬ ((ollamaRowOutcome resp).ai_pf = "FAILED" ∧ pdfOk i = false) := by
      rintro ⟨hf, hp⟩
      have h0 : pdfOk (i + 0) = true := h 0 hf
      rw [Nat.add_zero, hp] at h0
      exact Bool.false_ne_true h0
    have hrest : ∀ j, (ollamaRowOutcome (rest.getD j none)).ai_pf = "FAILED" →
        pdfOk (i + 1 + j) = true := by
      intro j hj
      have := h (j + 1) hj
      have harith : i + (j + 1) = i + 1 + j := by omega
      rwa [harith] at this
    simp only [processRows, if_neg hcond, ih (i + 1) hrest, List.map]

/-- C2: a row whose LLM call raised a transport error or returned no text gets
the literal sentinel "Error or No Response" and verdict UNKNOWN, and the loop
continues: with every needed PDF write succeeding, the run classifies every
row, one result per input row, aborting on no row. -/
theorem claim_C2_row_failure_isolated (resps : List (Option String)) (pdfOk : Nat → Bool) :
    (∀ r ∈ resps, (r = none ∨ r = some "") →
       ollamaRowOutcome r = ⟨"Error or No Response", "UNKNOWN"⟩)
  ∧ ((∀ j, (ollamaRowOutcome (resps.getD j none)).ai_pf = "FAILED" → pdfOk j = true) →
       processRows pdfOk resps 0 = .ok (resps.map ollamaRowOutcome)) := by
  constructor
  · rintro r - (rfl | rfl) <;> rfl
  · intro h
    refine processRows_ok pdfOk resps 0 (fun j hj => ?_)
    rw [Nat.zero_add]
    exact h j hj

/-- Witness for C2: a transport error and an empty reply both yield the
sentinel, and a three-row run with such failures still classifies all rows. -/
theorem claim_C2_witness :
    ((some "" : Option String) = none ∨ (some "" : Option String) = some "") ∧
    ollamaRowOutcome (some "") = ⟨"Error or No Response", "UNKNOWN"⟩ ∧
    processRows (fun _ => true) [none, some "", some "Pass"] 0 =
      .ok [⟨"Error or No Response", "UNKNOWN"⟩, ⟨"Error or No Response", "UNKNOWN"⟩,
           ⟨"Pass", "PASSED"⟩] := by
  refine ⟨Or.inr rfl, ?_, ?_⟩
  · exact (claim_C2_row_failure_isolated [none, some "", some "Pass"] (fun _ => true)).1
      (some "") (by simp) (Or.inr rfl)
  · exact (claim_C2_row_failure_isolated [none, some "", some "Pass"] (fun _ => true)).2
      (fun j _ => rfl)

/-- C3: when the consolidated table has zero rows, the consolidator writes no
output file, logs the notice, and (being a total function) raises nothing. -/
theorem claim_C3_empty_no_write (entries : List DirEntry)
    (h : consolidatedRows entries = []) :
    (consolidate_cdnotes entries).1 = none ∧
    "No data found to consolidate. No file will be generated." ∈
      (consolidate_cdnotes entries).2 := by
  unfold consolidate_cdnotes consolidateFinish
  rw [h]
  simp

/-- Witness for C3 at a root whose children contribute no rows. -/
theorem claim_C3_witness :
    consolidatedRows [DirEntry.file "readme.txt", DirEntry.dir "Empty" none] = [] ∧
    (consolidate_cdnotes [DirEntry.file "readme.txt", DirEntry.dir "Empty" none]).1 = none :=
  ⟨rfl, (claim_C3_empty_no_write [DirEntry.file "readme.txt", DirEntry.dir "Empty" none] rfl).1⟩

/-- C4 counterexample: a file whose single line has one field. The claim says
the rows contributed equal the number of well-formed two-field lines, but a
one-field line is not a bad line — pandas keeps it padded with null — so this
file contributes one row while having zero well-formed two-field lines. -/
theorem claim_C4_counterexample :
    ¬ ((parseNoteFile [["03/01/2024"]]).length =
        (List.filter twoField [["03/01/2024"]]).length) := by decide

/-- C4 amended: for every note file whose first non-blank line is a
well-formed two-field line (so the parser's expected width is the two named
columns — a file with a wider first line instead shifts the extra leading
fields into the index, a regime this model does not cover), the lines dropped
are exactly the blank ones and those with more than two fields; every line
with one or two fields is kept, a missing note field becoming null; hence the
rows contributed equal the number of non-blank lines with at most two fields,
which exceeds the number of well-formed two-field lines whenever a one-field
line is present. The hypothesis scopes the statement to the regime in which
`keptLine` is the library's keep rule. -/
theorem claim_C4_amended_parse (lines : List (List String))
    (hfirst : twoField (firstDataLine lines) = true) :
    (parseNoteFile lines).length = (lines.filter keptLine).length
  ∧ (∀ l ∈ lines, twoField l = true → keptLine l = true)
  ∧ (∀ l : List String, keptLine l = true ↔ (l ≠ [] ∧ l.length ≤ 2))
  ∧ keptLine (firstDataLine lines) = true := by
  refine ⟨?_, ?_, ?_, ?_⟩
  · unfold parseNoteFile
    rw [List.length_map]
  · rintro l - h
    have h2 : l.length = 2 := by simpa [twoField] using h
    simp [keptLine, h2]
    rintro rfl
    simp at h2
  · intro l
    simp [keptLine]
  · have h2 : (firstDataLine lines).length = 2 := by simpa [twoField] using hfirst
    simp [keptLine, h2]
    intro hnil
    rw [hnil] at h2
    simp at h2

/-- A left fold that appends each element's contribution is the concatenation
of the contributions in order. -/
theorem foldl_append_eq_flatMap {α β : Type} (f : α → List β) (l : List α) (acc : List β) :
    l.foldl (fun a e => a ++ f e) acc = acc ++ l.flatMap f := by
  induction l generalizing acc with
  | nil => simp
  | cons e es ih => simp [ih, List.append_assoc]

/-- Every row contributed by a directory entry carries that entry's name as
its employee field. -/
theorem contribution_employee (e : DirEntry) (r : CRow) (hr : r ∈ contributionOf e) :
    r.employee = entryName e := by
  cases e with
  | file n => simp [contributionOf] at hr
  | dir n notes =>
    cases notes with
    | none => simp [contributionOf] at hr
    | some lines =>
      simp only [contributionOf, List.mem_map] at hr
      obtain ⟨p, -, rfl⟩ := hr
      rfl

/-- C9: the consolidated table is the in-order concatenation of the per-entry
contributions (rows keep file order within an employee and employee encounter
order across the walk); each contributed row carries its employee's name; and
with distinct child names every row originates from exactly one entry. -/
theorem claim_C9_provenance (entries : List DirEntry) :
    consolidatedRows entries = entries.flatMap contributionOf
  ∧ (∀ e ∈ entries, ∀ r ∈ contributionOf e, r.employee = entryName e)
  ∧ ((entries.map entryName).Nodup →
      ∀ e₁ ∈ entries, ∀ e₂ ∈ entries, ∀ r : CRow,
        r ∈ contributionOf e₁ → r ∈ contributionOf e₂ → e₁ = e₂) := by
  refine ⟨by simpa using foldl_append_eq_flatMap contributionOf entries [], ?_, ?_⟩
  · rintro e - r hr
    exact contribution_employee e r hr
  · intro hnd e₁ h₁ e₂ h₂ r hr₁ hr₂
    have n₁ := contribution_employee e₁ r hr₁
    have n₂ := contribution_employee e₂ r hr₂
    exact List.inj_on_of_nodup_map hnd h₁ h₂ (n₁ ▸ n₂ ▸ rfl)

/-- Witness for C9 on a two-employee walk with distinct names. -/
theorem claim_C9_witness :
    consolidatedRows [DirEntry.dir "Acme" (some [["03/01/2024", "pens"]]),
        DirEntry.dir "Bob Co" (some [["03/02/2024", "clean"]])] =
      [DirEntry.dir "Acme" (some [["03/01/2024", "pens"]]),
       DirEntry.dir "Bob Co" (some [["03/02/2024", "clean"]])].flatMap contributionOf ∧
    DirEntry.dir "Acme" (some [["03/01/2024", "pens"]]) =
      DirEntry.dir "Acme" (some [["03/01/2024", "pens"]]) :=
  ⟨(claim_C9_provenance _).1,
   (claim_C9_provenance [DirEntry.dir "Acme" (some [["03/01/2024", "pens"]]),
        DirEntry.dir "Bob Co" (some [["03/02/2024", "clean"]])]).2.2 (by decide)
     _ (by simp) _ (by simp) ⟨"Acme", "03/01/2024", some "pens"⟩ (by decide) (by decide)⟩

/-- C5: the date filter keeps exactly the rows whose date parses in
month-day-year format and lies between start and end inclusive (unparseable
dates are null and excluded), and an empty filtered subset stops the run with
the "no records" notice, zero LLM calls, and no output written. -/
theorem claim_C5_date_filter (rows : List InRow) (s e : PDate) (oracle : Nat → Option String)
    (pdfOk : Nat → Bool) :
    (∀ r ∈ rows, r ∈ filterByRange rows s e ↔
        ∃ d, parseDateMDY r.date = some d ∧ s.ord ≤ d.ord ∧ d.ord ≤ e.ord)
  ∧ (∀ r ∈ rows, parseDateMDY r.date = none → r ∉ filterByRange rows s e)
  ∧ (filterByRange rows s e = [] →
      run_ai_on_csv rows s e oracle pdfOk =
        { output := none, llmCalls := 0,
          logs := ["No records found in the specified date range."] }) := by
  have hmem : ∀ r ∈ rows, r ∈ filterByRange rows s e ↔
      ∃ d, parseDateMDY r.date = some d ∧ s.ord ≤ d.ord ∧ d.ord ≤ e.ord := by
    intro r hr
    rw [filterByRange, List.mem_filter]
    simp only [hr, true_and]
    unfold inRange
    cases h : parseDateMDY r.date with
    | none => simp
    | some d => simp
  refine ⟨hmem, ?_, ?_⟩
  · intro r hr hnone hin
    obtain ⟨d, hd, -⟩ := (hmem r hr).mp hin
    rw [hnone] at hd
    exact Option.noConfusion hd
  · intro hemp
    unfold run_ai_on_csv
    simp [hemp]

/-- Witness for C5: a boundary date is kept, and a run whose filtered slice is
empty stops with no LLM call and no output. -/
theorem claim_C5_witness :
    (⟨"A", "03-01-2024", "n"⟩ ∈ filterByRange [⟨"A", "03-01-2024", "n"⟩, ⟨"B", "03/05/2024", "n"⟩]
        ⟨3, 1, 2024⟩ ⟨3, 2, 2024⟩) ∧
    run_ai_on_csv [⟨"B", "03/05/2024", "n"⟩] ⟨3, 1, 2024⟩ ⟨3, 2, 2024⟩ (fun _ => some "Pass")
        (fun _ => true) =
      { output := none, llmCalls := 0,
        logs := ["No records found in the specified date range."] } :=
  ⟨((claim_C5_date_filter [⟨"A", "03-01-2024", "n"⟩, ⟨"B", "03/05/2024", "n"⟩]
        ⟨3, 1, 2024⟩ ⟨3, 2, 2024⟩ (fun _ => none) (fun _ => true)).1
      ⟨"A", "03-01-2024", "n"⟩ (by simp)).mpr ⟨⟨3, 1, 2024⟩, by decide, by decide, by decide⟩,
   (claim_C5_date_filter [⟨"B", "03/05/2024", "n"⟩] ⟨3, 1, 2024⟩ ⟨3, 2, 2024⟩
      (fun _ => some "Pass") (fun _ => true)).2.2 (by decide)⟩

/-- C7: the Gemini-variant document filename is deterministic: the date
normalized to MM-DD-YYYY, a dash, the employee name with every space replaced
by an underscore, and the suffix -CD.PDF, with the literal
`"Unknown_Date"` substituted when the row date does not parse in the variant's
accepted `%Y-%m-%d` format; generation always completes with a filename. -/
theorem claim_C7_pdf_filename (name date : String) :
    (parseDateYMD date = none →
        pdfFileName name date = "Unknown_Date" ++ "-" ++ underscoreName name ++ "-CD.PDF")
  ∧ (∀ d, parseDateYMD date = some d →
        pdfFileName name date = formatMDY d ++ "-" ++ underscoreName name ++ "-CD.PDF")
  ∧ (∀ c ∈ (underscoreName name).data, c ≠ ' ')
  ∧ (underscoreName name).data.length = name.data.length := by
  refine ⟨?_, ?_, ?_, ?_⟩
  · intro h
    unfold pdfFileName
    rw [h]
  · intro d h
    unfold pdfFileName
    rw [h]
  · intro c hc
    simp only [underscoreName, List.mem_map] at hc
    obtain ⟨a, -, rfl⟩ := hc
    by_cases ha : a = ' ' <;> simp [ha]
  · simp [underscoreName]

/-- Witness for C7 at a parseable and an unparseable row date. -/
theorem claim_C7_witness :
    parseDateYMD "2024-03-01" = some ⟨3, 1, 2024⟩ ∧
    pdfFileName "John Doe" "2024-03-01" = "03-01-2024-John_Doe-CD.PDF" ∧
    pdfFileName "John Doe" "Unknown" = "Unknown_Date-John_Doe-CD.PDF" :=
  ⟨by decide,
   ((claim_C7_pdf_filename "John Doe" "2024-03-01").2.1 ⟨3, 1, 2024⟩ (by decide)).trans
     (by decide),
   ((claim_C7_pdf_filename "John Doe" "Unknown").1 (by decide)).trans (by decide)⟩

/-- A FAILED row whose PDF write raises aborts the classification loop with
the propagated exception. -/
theorem processRows_error (pdfOk : Nat → Bool) (resps : List (Option String)) (i j : Nat)
    (hj : j < resps.length)
    (hf : (ollamaRowOutcome (resps.getD j none)).ai_pf = "FAILED")
    (hp : pdfOk (i + j) = false) :
    processRows pdfOk resps i = .error () := by
  induction resps generalizing i j with
  | nil => simp at hj
  | cons resp rest ih =>
    by_cases h0 : (ollamaRowOutcome resp).ai_pf = "FAILED" ∧ pdfOk i = false
    · simp [processRows, if_pos h0]
    · cases j with
      | zero =>
        rw [Nat.add_zero] at hp
        exact absurd ⟨hf, hp⟩ h0
      | succ j' =>
        have harith : i + 1 + j' = i + (j' + 1) := by omega
        have htail : processRows pdfOk rest (i + 1) = .error () :=
          ih (i + 1) j' (by simpa using hj) hf (by rwa [harith])
        simp [processRows, if_neg h0, htail]

/-- C6 counterexample: two FAILED rows where only the first row's PDF write
raises. The claim says the error does not stop the classification of
subsequent rows, but the loop (which has no per-row try/except around
`generate_pdf`) aborts at row 0 — row 1 is never classified — and the outer
except in `run_ai_on_csv` catches the exception, so no output CSV is written. -/
theorem claim_C6_counterexample :
    processRows (fun i => decide (0 < i)) [some "Fail: pens", some "Fail: cups"] 0 =
      .error () ∧
    runClassification (fun i => decide (0 < i)) [some "Fail: pens", some "Fail: cups"] = none :=
  ⟨rfl, rfl⟩

/-- C6 amended: an I/O error while writing the acknowledgment document of a
FAILED row propagates out of the loop: the run-level except catches and logs
it (the process does not crash — the model stays total), but the rows after it
are not classified and the output table is not written. -/
theorem claim_C6_amended_abort (pdfOk : Nat → Bool) (resps : List (Option String))
    (h : ∃ j, j < resps.length ∧
        (ollamaRowOutcome (resps.getD j none)).ai_pf = "FAILED" ∧ pdfOk j = false) :
    processRows pdfOk resps 0 = .error () ∧ runClassification pdfOk resps = none := by
  obtain ⟨j, hj, hf, hp⟩ := h
  have he := processRows_error pdfOk resps 0 j hj hf (by rwa [Nat.zero_add])
  exact ⟨he, by simp [runClassification, he]⟩

/-- Witness for C6's amended statement. -/
theorem claim_C6_witness :
    runClassification (fun _ => false) [some "Fail items"] = none :=
  (claim_C6_amended_abort (fun _ => false) [some "Fail items"]
    ⟨0, by decide, by decide, rfl⟩).2

/-- Spec of the fill loop: it appends exactly the required labels absent from
the header, in encounter order, each appended column constantly filled. -/
theorem addMissingL_spec (fill : String → String) (req cols : List String)
    (rows : List (List String)) (hnd : req.Nodup) :
    addMissingL fill req ⟨cols, rows⟩ =
      ⟨cols ++ req.filter (fun c => !cols.contains c),
       rows.map (fun r => r ++ (req.filter (fun c => !cols.contains c)).map fill)⟩ := by
  induction req generalizing cols rows with
  | nil => simp [addMissingL]
  | cons c cs ih =>
    simp only [addMissingL, List.foldl_cons] at *
    by_cases hc : cols.contains c = true
    · rw [if_pos hc, ih cols rows (List.Nodup.of_cons hnd)]
      have hcm : c ∈ cols := by simpa using hc
      simp [List.filter_cons, hcm]
    · have hcm : c ∉ cols := by simpa using hc
      rw [if_neg hc]
      have hstep : addColumn ⟨cols, rows⟩ c (fill c) =
          ⟨cols ++ [c], rows.map (fun r => r ++ [fill c])⟩ := rfl
      rw [hstep, ih (cols ++ [c]) (rows.map (fun r => r ++ [fill c])) (List.Nodup.of_cons hnd)]
      have hfilter : cs.filter (fun x => !(cols ++ [c]).contains x) =
          cs.filter (fun x => !cols.contains x) := by
        apply List.filter_congr
        intro x hx
        have hxc : ¬ x = c := by
          rintro rfl
          exact (List.nodup_cons.mp hnd).1 hx
        simp [hxc]
      rw [hfilter]
      simp [List.filter_cons, hcm, List.append_assoc, List.map_map, Function.comp]

/-- An index returned by `idxOf` is within the list. -/
theorem idxOf_lt_length {c : String} {l : List String} {i : Nat} (h : idxOf c l = some i) :
    i < l.length := by
  induction l generalizing i with
  | nil => simp [idxOf] at h
  | cons x xs ih =>
    rw [idxOf] at h
    by_cases hx : x = c
    · rw [if_pos hx] at h
      injection h with h
      simp [← h]
    · rw [if_neg hx] at h
      cases hidx : idxOf c xs with
      | none => rw [hidx] at h; simp at h
      | some j =>
        rw [hidx] at h
        simp only [Option.map_some'] at h
        injection h with h
        have := ih hidx
        simp [← h]
        omega

/-- The element at an `idxOf` index is the label looked up. -/
theorem idxOf_getD {c : String} {l : List String} {i : Nat} (h : idxOf c l = some i)
    (d : String) : l.getD i d = c := by
  induction l generalizing i with
  | nil => simp [idxOf] at h
  | cons x xs ih =>
    rw [idxOf] at h
    by_cases hx : x = c
    · rw [if_pos hx] at h
      injection h with h
      rw [← h]
      simpa using hx
    · rw [if_neg hx] at h
      cases hidx : idxOf c xs with
      | none => rw [hidx] at h; simp at h
      | some j =>
        rw [hidx] at h
        simp only [Option.map_some'] at h
        injection h with h
        rw [← h]
        simpa using ih hidx

/-- A present label has an index. -/
theorem idxOf_of_mem {c : String} {l : List String} (h : c ∈ l) :
    ∃ i, idxOf c l = some i := by
  induction l with
  | nil => simp at h
  | cons x xs ih =>
    by_cases hx : x = c
    · exact ⟨0, by simp [idxOf, hx]⟩
    · have hxs : c ∈ xs := by
        rcases List.mem_cons.mp h with h' | h'
        · exact absurd h'.symm hx
        · exact h'
      obtain ⟨i, hi⟩ := ih hxs
      exact ⟨i + 1, by simp [idxOf, hx, hi]⟩

/-- Looking up past a block not containing the label shifts the index. -/
theorem idxOf_append {c : String} {l1 : List String} (l2 : List String) (h : c ∉ l1) :
    idxOf c (l1 ++ l2) = (idxOf c l2).map (· + l1.length) := by
  induction l1 with
  | nil => cases hidx : idxOf c l2 <;> simp [hidx]
  | cons x xs ih =>
    have hx : ¬ x = c := fun he => h (he ▸ List.mem_cons_self x xs)
    have hxs : c ∉ xs := fun hm => h (List.mem_cons_of_mem x hm)
    rw [List.cons_append, idxOf, if_neg hx, ih hxs]
    cases hidx : idxOf c l2 with
    | none => simp [hidx]
    | some i =>
      simp [hidx]
      omega

/-- `getD` of a mapped list at an in-bounds index. -/
theorem getD_map_lt {α β : Type} (f : α → β) {l : List α} {i : Nat} (h : i < l.length)
    (d : β) (d' : α) : (l.map f).getD i d = f (l.getD i d') := by
  induction l generalizing i with
  | nil => simp at h
  | cons x xs ih =>
    cases i with
    | zero => rfl
    | succ i' =>
      simp only [List.map_cons, List.getD_cons_succ]
      exact ih (by simpa using h)

/-- `getD` of a constantly-mapped list at an in-bounds index. -/
theorem getD_map_const {l : List String} {k : Nat} (h : k < l.length) (v d : String) :
    (l.map (fun _ => v)).getD k d = v :=
  getD_map_lt (fun _ => v) h d ""

/-- Looking up a cell through a resolved label index. -/
theorem lookupCell_eq_of_idxOf {cols row : List String} {c : String} {i : Nat}
    (h : idxOf c cols = some i) : lookupCell cols row c = row.getD i "" := by
  unfold lookupCell
  rw [h]

/-- Projecting a six-cell row onto the required schema returns the row. -/
theorem lookup_required_self (r : List String) (h : r.length = 6) :
    requiredColumns.map (lookupCell requiredColumns r) = r := by
  rcases r with _ | ⟨a, _ | ⟨b, _ | ⟨c, _ | ⟨d, _ | ⟨e, _ | ⟨f, _ | ⟨g, r⟩⟩⟩⟩⟩⟩⟩ <;>
    simp only [List.length] at h <;> first | rfl | omega

/-- The duplicated second pass is the identity on a table already in the
required shape. -/
theorem finalizePass2_fixed (rows : List (List String)) (hlen : ∀ r ∈ rows, r.length = 6) :
    finalizePass2 ⟨requiredColumns, rows⟩ = ⟨requiredColumns, rows⟩ := by
  unfold finalizePass2 renameTable
  rw [show renameCols requiredColumns = requiredColumns from by decide]
  rw [addMissingL_spec _ _ _ _ (by decide)]
  rw [show requiredColumns.filter (fun c => !requiredColumns.contains c) = [] from by decide]
  simp only [List.map_nil, List.append_nil, projectTable]
  congr 1
  calc (rows.map (fun r => r)).map
        (fun r => requiredColumns.map (lookupCell requiredColumns r))
      = rows.map (fun r => requiredColumns.map (lookupCell requiredColumns r)) := by
        simp
    _ = rows.map id :=
        List.map_congr_left (fun r hr => lookup_required_self r (hlen r hr))
    _ = rows := List.map_id rows

/-- The first pass preserves the number of rows. -/
theorem finalizePass1_len (t : Table) : (finalizePass1 t).rows.length = t.rows.length := by
  unfold finalizePass1 renameTable
  rw [addMissingL_spec _ _ _ _ (by decide)]
  simp [projectTable]

/-- Every row produced by the first pass has one cell per required column. -/
theorem finalizePass1_row_len (t : Table) : ∀ r ∈ (finalizePass1 t).rows, r.length = 6 := by
  intro r hr
  unfold finalizePass1 projectTable at hr
  simp only [List.mem_map] at hr
  obtain ⟨r2, -, rfl⟩ := hr
  simp [requiredColumns]

/-- A required column absent from the (renamed) source header is filled with
the literal "Unknown" in every row the first pass produces. -/
theorem finalizePass1_missing (t : Table) (ht : Aligned t) (c : String)
    (hc : c ∈ requiredColumns) (hmiss : c ∉ renameCols t.cols) :
    ∀ r ∈ (finalizePass1 t).rows, lookupCell requiredColumns r c = "Unknown" := by
  intro r hr
  unfold finalizePass1 renameTable at hr
  rw [addMissingL_spec _ _ _ _ (by decide)] at hr
  simp only [projectTable, List.map_map, List.mem_map, Function.comp] at hr
  obtain ⟨r1, hr1, rfl⟩ := hr
  have hcmiss : c ∈ requiredColumns.filter (fun x => !(renameCols t.cols).contains x) := by
    refine List.mem_filter.mpr ⟨hc, ?_⟩
    simpa using hmiss
  obtain ⟨k, hk⟩ := idxOf_of_mem hcmiss
  have hklt := idxOf_lt_length hk
  obtain ⟨j, hj⟩ := idxOf_of_mem hc
  have hjlt := idxOf_lt_length hj
  rw [lookupCell_eq_of_idxOf hj, getD_map_lt _ hjlt _ "", idxOf_getD hj]
  have hidx2 : idxOf c (renameCols t.cols ++
      requiredColumns.filter (fun x => !(renameCols t.cols).contains x)) =
      some (k + (renameCols t.cols).length) := by
    rw [idxOf_append _ hmiss, hk]
    rfl
  rw [lookupCell_eq_of_idxOf hidx2]
  have hlen1 : r1.length = (renameCols t.cols).length := by
    unfold renameCols
    rw [List.length_map]
    exact ht r1 hr1
  rw [List.getD_append_right _ _ _ _ (by omega)]
  have harith : k + (renameCols t.cols).length - r1.length = k := by omega
  rw [harith]
  exact getD_map_const hklt _ _

/-- C8: for every input table, the final persisted Gemini report has exactly
the required columns Employee Name, Last Clean Desk Date, Location,
Compliant, Note, AI_Response in that fixed order, one output row per input
row, and any required column absent from the (renamed) source header holds
the literal placeholder "Unknown" in every row; the projection is a total
function of the input. -/
theorem claim_C8_report_schema (t : Table) (ht : Aligned t) :
    (finalReport t).cols = requiredColumns
  ∧ (finalReport t).rows.length = t.rows.length
  ∧ (∀ c ∈ requiredColumns, c ∉ renameCols t.cols →
       ∀ r ∈ (finalReport t).rows, lookupCell requiredColumns r c = "Unknown") := by
  have hfix := finalizePass2_fixed (finalizePass1 t).rows (finalizePass1_row_len t)
  have hft : finalReport t = ⟨requiredColumns, (finalizePass1 t).rows⟩ := by
    show finalizePass2 (finalizePass1 t) = _
    rw [show finalizePass1 t = ⟨requiredColumns, (finalizePass1 t).rows⟩ from rfl]
    exact hfix
  refine ⟨by rw [hft], ?_, ?_⟩
  · rw [hft]
    exact finalizePass1_len t
  · intro c hc hmiss r hr
    rw [hft] at hr
    exact finalizePass1_missing t ht c hc hmiss r hr

/-- Witness for C8 on a one-column source table lacking five required
columns. -/
theorem claim_C8_witness :
    (finalReport ⟨["Note"], [["pens on desk"]]⟩).cols = requiredColumns ∧
    lookupCell requiredColumns ["Unknown", "Unknown", "Unknown", "Unknown", "pens on desk",
      "Unknown"] "Location" = "Unknown" :=
  ⟨(claim_C8_report_schema ⟨["Note"], [["pens on desk"]]⟩
      (by unfold Aligned; decide)).1,
   (claim_C8_report_schema ⟨["Note"], [["pens on desk"]]⟩
      (by unfold Aligned; decide)).2.2 "Location" (by decide) (by decide)
     ["Unknown", "Unknown", "Unknown", "Unknown", "pens on desk", "Unknown"] (by decide)⟩

/-- Witness for C4's amended statement on a mixed file whose first line is a
well-formed two-field record. -/
theorem claim_C4_witness :
    (parseNoteFile [["03/01/2024", "pens"], ["a", "b", "c"], ["d"]]).length =
      (List.filter keptLine [["03/01/2024", "pens"], ["a", "b", "c"], ["d"]]).length ∧
    twoField (firstDataLine [["03/01/2024", "pens"], ["a", "b", "c"], ["d"]]) = true ∧
    keptLine ["03/01/2024", "pens"] = true :=
  ⟨(claim_C4_amended_parse [["03/01/2024", "pens"], ["a", "b", "c"], ["d"]] (by decide)).1,
   by decide,
   (claim_C4_amended_parse [["03/01/2024", "pens"], ["a", "b", "c"], ["d"]] (by decide)).2.1
     ["03/01/2024", "pens"] (by simp) (by decide)⟩

end CleanDesk
